import Mathlib

/-!
Verification development for the sandbox lifecycle / isolation subsystem.

Shallow embedding of the repository's Python sources:
* `src/tools/implementations/filesystem.py` (ReadFileTool, WriteFileTool, ListFilesTool)
* `src/sandbox/container_executor.py`      (ContainerToolExecutor and its generated scripts)
* `src/sandbox/docker_image_builder.py`    (DockerImageBuilder image-tag derivation)
* `src/sandbox/resource_manager.py`        (ResourceManager stats / enforcement)
* `src/sandbox/manager.py`                 (SandboxManager create / cleanup / tool set)
* `src/sandbox/environment.py` and `src/sandbox/container_environment.py`
  (environment builders with rollback and cleanup)

Filesystem paths are modelled lexically (PurePosixPath semantics: `Path.resolve`
normalises `.` and `..`; symlinks are outside the model).  The filesystem itself
is modelled as a map from absolute paths to file contents plus a set of
directories, with total success semantics for `mkdir`/`open` — the claims under
study concern path logic and orchestration, not device-level I/O failures.
-/

namespace SubAgent

/-! ## Path model (PurePosixPath / Path.resolve semantics) -/

/-- A Python `pathlib` path: an absolute flag plus its components.
`Path("/a/b")` ↦ `⟨true, ["a","b"]⟩`; `Path("../x")` ↦ `⟨false, ["..","x"]⟩`. -/
structure PyPath where
  absolute : Bool
  comps : List String
deriving DecidableEq, Repr

/-- Split a character list at `/` separators (the character-level counterpart
of `"…".split("/")`, kept structural so that concrete paths evaluate). -/
def splitSlashAux : List Char → List Char → List String
  | acc, [] => [String.mk acc.reverse]
  | acc, c :: rest =>
    if c = '/' then String.mk acc.reverse :: splitSlashAux [] rest
    else splitSlashAux (c :: acc) rest

/-- Parse a path string the way `pathlib.PurePosixPath` does: a leading `/`
makes it absolute, empty components (from `//` or trailing `/`) are dropped,
`.` and `..` are kept as components until resolution. -/
def parsePath (s : String) : PyPath :=
  ⟨s.data.head? = some '/', (splitSlashAux [] s.data).filter (fun c => c ≠ "")⟩

/-- One step of lexical `Path.resolve` normalisation: `.` is dropped, `..`
removes the last component (staying at the root if there is none), anything
else is appended. -/
def resolveStep (acc : List String) (c : String) : List String :=
  if c = "." then acc
  else if c = ".." then acc.dropLast
  else acc ++ [c]

/-- Lexical `Path.resolve` of an absolute path's components. -/
def resolveComps (cs : List String) : List String :=
  cs.foldl resolveStep []

/-- Python's `/` operator on paths: `base / p` is `p` itself when `p` is
absolute, otherwise the concatenation.  `base` is the component list of an
absolute base path. -/
def joinPy (base : List String) (p : PyPath) : PyPath :=
  if p.absolute then p else ⟨true, base ++ p.comps⟩

/-- The fully resolved absolute components of a requested path against a base,
i.e. `(base / p).resolve()`. -/
def resolvedAgainst (base : List String) (p : PyPath) : List String :=
  resolveComps (joinPy base p).comps

/-- `_ensure_within_sandbox` from `filesystem.py` (identical in all three
tools): absolute requests are resolved and checked against the base via
`relative_to`; relative requests are resolved against the base and re-checked.
Returns the resolved path, or `none` where the Python raises `ValueError`. -/
def ensureWithinSandbox (base : List String) (p : PyPath) : Option (List String) :=
  if p.absolute then
    let requested := resolveComps p.comps
    if base.isPrefixOf requested then some requested else none
  else
    let requested := resolveComps (base ++ p.comps)
    if base.isPrefixOf requested then some requested else none

/-! ## Filesystem model -/

/-- Idealised filesystem state: a set of directories and a map from absolute
paths (component lists) to file contents. -/
structure FS where
  dirs : List (List String)
  files : List (List String × String)
deriving DecidableEq, Repr

/-- Content of the file at `p`, if present. -/
def FS.getFile (fs : FS) (p : List String) : Option String :=
  (fs.files.find? (fun e => e.1 = p)).map (·.2)

/-- Write (create or overwrite) the file at `p`. -/
def FS.setFile (fs : FS) (p : List String) (content : String) : FS :=
  ⟨fs.dirs, (p, content) :: fs.files.filter (fun e => e.1 ≠ p)⟩

/-- All prefixes of a component list, from `[]` (the root) up to the list
itself — the chain of ancestors `mkdir(parents=True)` has to ensure. -/
def prefixes : List String → List (List String)
  | [] => [[]]
  | c :: cs => [] :: (prefixes cs).map (c :: ·)

/-- `Path.mkdir(parents=True, exist_ok=True)`: ensure `p` and every ancestor
exist as directories. -/
def FS.mkdirParents (fs : FS) (p : List String) : FS :=
  ⟨fs.dirs ++ (prefixes p).filter (fun q => q ∉ fs.dirs), fs.files⟩

/-- `p` names an existing directory. -/
def FS.isDir (fs : FS) (p : List String) : Prop := p ∈ fs.dirs

instance (fs : FS) (p : List String) : Decidable (fs.isDir p) :=
  inferInstanceAs (Decidable (p ∈ fs.dirs))

/-- The entry names directly inside directory `p` (as `Path.iterdir` yields
them), sorted as `ListFilesTool.execute` sorts them. -/
def FS.childNames (fs : FS) (p : List String) : List String :=
  let dirChildren := fs.dirs.filterMap fun d =>
    if d.take p.length = p ∧ d.length = p.length + 1 then d.getLast? else none
  let fileChildren := fs.files.filterMap fun e =>
    if e.1.take p.length = p ∧ e.1.length = p.length + 1 then e.1.getLast? else none
  (dirChildren ++ fileChildren).mergeSort (fun a b => a ≤ b)

/-! ## Directory-backend tools (`filesystem.py`) -/

/-- The exceptions the filesystem tools raise. -/
inductive ToolError where
  /-- `ValueError` from `validate_parameters` failing. -/
  | invalidParams : ToolError
  /-- `ValueError` from `_ensure_within_sandbox`: path outside the sandbox. -/
  | containment : ToolError
  /-- `FileNotFoundError`. -/
  | notFound : ToolError
  /-- `ValueError: Path is not a file`. -/
  | notAFile : ToolError
  /-- `ValueError: Path is not a directory`. -/
  | notADirectory : ToolError
deriving DecidableEq, Repr

/-- Result dictionary returned by `WriteFileTool.execute`. -/
structure WriteResult where
  file_path : List String
  bytes_written : Nat
deriving DecidableEq, Repr

/-- `ReadFileTool.execute`: validate, contain, check existence and file-ness,
return the content.  The filesystem is returned unchanged on every path
(the Python never mutates it). -/
def readFileTool (base : List String) (file_path : String) (fs : FS) :
    Except ToolError String × FS :=
  if file_path = "" then (.error .invalidParams, fs)
  else
    match ensureWithinSandbox base (parsePath file_path) with
    | none => (.error .containment, fs)
    | some resolved =>
      match fs.getFile resolved with
      | some content => (.ok content, fs)
      | none =>
        if fs.isDir resolved then (.error .notAFile, fs)
        else (.error .notFound, fs)

/-- `WriteFileTool.execute`: validate, contain, create parent directories,
write, and report `bytes_written` (Python `TextIOBase.write` returns the
number of characters of `content`). -/
def writeFileTool (base : List String) (file_path : String) (content : String)
    (fs : FS) : Except ToolError WriteResult × FS :=
  if file_path = "" then (.error .invalidParams, fs)
  else
    match ensureWithinSandbox base (parsePath file_path) with
    | none => (.error .containment, fs)
    | some resolved =>
      let fs1 := fs.mkdirParents resolved.dropLast
      let fs2 := fs1.setFile resolved content
      (.ok ⟨resolved, content.length⟩, fs2)

/-- `ListFilesTool.execute`: the `directory_path` argument defaults to `"."`;
contain, check existence and directory-ness, return the sorted child names. -/
def listFilesTool (base : List String) (directory_path : Option String)
    (fs : FS) : Except ToolError (List String) × FS :=
  let dp := directory_path.getD "."
  match ensureWithinSandbox base (parsePath dp) with
  | none => (.error .containment, fs)
  | some resolved =>
    if fs.isDir resolved then (.ok (fs.childNames resolved), fs)
    else if (fs.getFile resolved).isSome then (.error .notADirectory, fs)
    else (.error .notFound, fs)

/-! ## Container tool executor (`container_executor.py`)

The generated scripts are modelled at the JSON-envelope granularity: a stdout
line is an `Envelope` value (the scripts emit exactly one `json.dumps` line,
which never contains a raw newline since `json.dumps` escapes control
characters). -/

/-- The in-container workspace root `BASE = Path("/workspace")`. -/
def scriptBase : List String := ["workspace"]

/-- A tool result value inside the envelope (`result` field). -/
inductive EnvValue where
  /-- a file's content, from the read script -/
  | str (s : String)
  /-- a directory listing, from the list script -/
  | strList (l : List String)
  /-- the write script's result dict -/
  | writeRes (file_path : List String) (bytes_written : Nat)
deriving DecidableEq, Repr

/-- The `error` object of a failure envelope: message, exception type name,
and traceback text. -/
structure EnvError where
  error : String
  type : String
  traceback : String
deriving DecidableEq, Repr

/-- The single-line JSON result envelope printed by every generated script. -/
structure Envelope where
  success : Bool
  result : Option EnvValue
  error : Option EnvError
deriving DecidableEq, Repr

/-- A success envelope `{"success": true, "result": ...}`. -/
def Envelope.okEnv (v : EnvValue) : Envelope := ⟨true, some v, none⟩

/-- A failure envelope `{"success": false, "error": {...}}`. -/
def Envelope.failEnv (msg ty tb : String) : Envelope := ⟨false, none, some ⟨msg, ty, tb⟩⟩

/-- What running one generated script does: the envelope lines printed to
stdout, the process exit code, and the filesystem afterwards. -/
structure ScriptOut where
  out : List Envelope
  exitCode : Nat
  fs : FS
deriving Repr

/-- The script generated by `_script_write_file`.  Arguments are read with
`args.get(..., "")`; an empty or missing `file_path` is rejected; the target
is `(BASE / file_path).resolve()` and must satisfy `relative_to(BASE)`;
parents are created and the file written.  Every branch prints exactly one
envelope and exits 0. -/
def scriptWriteFile (file_path content : Option String) (fs : FS) : ScriptOut :=
  let fp := file_path.getD ""
  let c := content.getD ""
  if fp = "" then
    ⟨[.failEnv "Missing or invalid file_path" "ValueError" ""], 0, fs⟩
  else
    let target := resolvedAgainst scriptBase (parsePath fp)
    if scriptBase.isPrefixOf target then
      let fs1 := fs.mkdirParents target.dropLast
      let fs2 := fs1.setFile target c
      ⟨[.okEnv (.writeRes target c.length)], 0, fs2⟩
    else
      ⟨[.failEnv ("Path " ++ fp ++ " is outside sandbox /workspace") "ValueError" ""], 0, fs⟩

/-- The script generated by `_script_read_file`. -/
def scriptReadFile (file_path : Option String) (fs : FS) : ScriptOut :=
  let fp := file_path.getD ""
  if fp = "" then
    ⟨[.failEnv "Missing or invalid file_path" "ValueError" ""], 0, fs⟩
  else
    let target := resolvedAgainst scriptBase (parsePath fp)
    if scriptBase.isPrefixOf target then
      match fs.getFile target with
      | some c => ⟨[.okEnv (.str c)], 0, fs⟩
      | none =>
        if fs.isDir target then
          ⟨[.failEnv "Path is not a file" "ValueError" ""], 0, fs⟩
        else
          ⟨[.failEnv "File not found" "FileNotFoundError" ""], 0, fs⟩
    else
      ⟨[.failEnv ("Path " ++ fp ++ " is outside sandbox /workspace") "ValueError" ""], 0, fs⟩

/-- The script generated by `_script_list_files` (`directory_path` defaults
to `"."`). -/
def scriptListFiles (directory_path : Option String) (fs : FS) : ScriptOut :=
  let dp := directory_path.getD "."
  let target := resolvedAgainst scriptBase (parsePath dp)
  if scriptBase.isPrefixOf target then
    if fs.isDir target then
      ⟨[.okEnv (.strList (fs.childNames target))], 0, fs⟩
    else if (fs.getFile target).isSome then
      ⟨[.failEnv "Path is not a directory" "ValueError" ""], 0, fs⟩
    else
      ⟨[.failEnv "Directory not found" "FileNotFoundError" ""], 0, fs⟩
  else
    ⟨[.failEnv ("Path " ++ dp ++ " is outside sandbox /workspace") "ValueError" ""], 0, fs⟩

/-- The dictionary returned by `ContainerManager.execute_in_container`, as the
executor consumes it.  `stdout` is kept at envelope-line granularity: `[]` is
empty output, `[e]` a single JSON line, and two or more lines are not a valid
JSON document. -/
structure ExecResult where
  exit_code : Option Int
  stdout : List Envelope
  stderr : String
  error : Option String
deriving Repr

/-- Why the executor raises `RuntimeError`. -/
inductive ExecError where
  /-- runtime-reported execution error (`result["error"]` set) -/
  | containerError (msg : String)
  /-- nonzero (or missing, defaulted to `-1`) exit code -/
  | nonzeroExit (code : Int)
  /-- `Tool execution produced no output` -/
  | noOutput
  /-- stdout was not a single JSON document -/
  | parseFailure
  /-- a failure envelope, with the decoded kind / message / traceback -/
  | toolFailed (ty msg tb : String)
deriving DecidableEq, Repr

/-- `_execute_script_in_container` after the exec call: raise on a
runtime-reported error, then on a nonzero exit code (missing defaults to
`-1`), otherwise hand the result on. -/
def executeScriptInContainer (r : ExecResult) : Except ExecError ExecResult :=
  match r.error with
  | some msg => .error (.containerError msg)
  | none =>
    let code := r.exit_code.getD (-1)
    if code ≠ 0 then .error (.nonzeroExit code)
    else .ok r

/-- `_deserialize_result`: empty stdout is fatal, stdout must parse as one
JSON document, a failure envelope raises with the decoded error information,
and a success envelope yields its `result`. -/
def deserializeResult (r : ExecResult) : Except ExecError (Option EnvValue) :=
  match r.stdout with
  | [] => .error .noOutput
  | [env] =>
    if env.success then .ok env.result
    else
      match env.error with
      | some e => .error (.toolFailed e.type e.error e.traceback)
      | none => .error (.toolFailed "Exception" "Unknown error" "")
  | _ => .error .parseFailure

/-- The executor pipeline downstream of `execute_in_container`: the container
check followed by deserialisation. -/
def executorDecode (r : ExecResult) : Except ExecError (Option EnvValue) :=
  match executeScriptInContainer r with
  | .error e => .error e
  | .ok r' => deserializeResult r'

/-! ## Helper lemmas about the path and filesystem model -/

theorem ensureWithinSandbox_eq_none_iff (base : List String) (q : PyPath) :
    ensureWithinSandbox base q = none ↔
      base.isPrefixOf (resolvedAgainst base q) = false := by
  rcases q with ⟨abs, cs⟩
  cases abs <;>
    simp only [ensureWithinSandbox, resolvedAgainst, joinPy, if_true, if_false,
      Bool.false_eq_true, reduceIte] <;>
    split <;> simp_all [Bool.eq_false_iff, List.isPrefixOf_iff_prefix]

theorem ensureWithinSandbox_eq_some_iff (base : List String) (q : PyPath) :
    ensureWithinSandbox base q = some (resolvedAgainst base q) ↔
      base.isPrefixOf (resolvedAgainst base q) = true := by
  rcases q with ⟨abs, cs⟩
  cases abs <;>
    simp only [ensureWithinSandbox, resolvedAgainst, joinPy, if_true, if_false,
      Bool.false_eq_true, reduceIte] <;>
    split <;> simp_all [Bool.eq_false_iff, List.isPrefixOf_iff_prefix]

theorem parsePath_empty : parsePath "" = ⟨false, []⟩ := by decide

theorem resolvedAgainst_empty (base : List String) :
    resolvedAgainst base (parsePath "") = resolveComps base := by
  simp [parsePath_empty, resolvedAgainst, joinPy]

theorem mem_prefixes {q l : List String} : q ∈ prefixes l ↔ q <+: l := by
  induction l generalizing q with
  | nil => simp [prefixes]
  | cons c cs ih =>
    cases q with
    | nil => simp [prefixes]
    | cons a q' =>
      simp only [prefixes, List.mem_cons, List.mem_map, List.cons_prefix_cons]
      constructor
      · rintro (h | ⟨r, hr, heq⟩)
        · exact absurd h (by simp)
        · injection heq with h1 h2
          subst h1; subst h2
          exact ⟨rfl, ih.mp hr⟩
      · rintro ⟨rfl, h⟩
        exact Or.inr ⟨q', ih.mpr h, rfl⟩

theorem mem_mkdirParents_dirs (fs : FS) (p q : List String) :
    q ∈ (fs.mkdirParents p).dirs ↔ q ∈ fs.dirs ∨ q ∈ prefixes p := by
  simp only [FS.mkdirParents, List.mem_append, List.mem_filter,
    decide_eq_true_eq]
  by_cases h : q ∈ fs.dirs <;> simp [h]

theorem getFile_setFile (fs : FS) (p : List String) (c : String) :
    (fs.setFile p c).getFile p = some c := by
  simp [FS.setFile, FS.getFile, List.find?]

theorem setFile_dirs (fs : FS) (p : List String) (c : String) :
    (fs.setFile p c).dirs = fs.dirs := rfl

/-! ## C1: path containment -/

/-- **C1.** For every workspace root (a resolved absolute directory) and every
requested path string that resolves outside that root — via `../` traversal in
a relative path or an absolute path outside the root — the `read_file`,
`write_file` and `list_files` operations fail with a containment error and
leave the filesystem untouched; likewise the container-executor generated
scripts (whose root is `/workspace`) answer with a containment-error envelope
and leave the filesystem untouched. -/
theorem c1_path_containment (base : List String)
    (hBase : resolveComps base = base) (p content : String) (fs : FS)
    (hOut : base.isPrefixOf (resolvedAgainst base (parsePath p)) = false) :
    readFileTool base p fs = (.error .containment, fs)
    ∧ writeFileTool base p content fs = (.error .containment, fs)
    ∧ listFilesTool base (some p) fs = (.error .containment, fs)
    ∧ (scriptBase.isPrefixOf (resolvedAgainst scriptBase (parsePath p)) = false →
        scriptReadFile (some p) fs =
          ⟨[.failEnv ("Path " ++ p ++ " is outside sandbox /workspace")
              "ValueError" ""], 0, fs⟩
        ∧ scriptWriteFile (some p) (some content) fs =
          ⟨[.failEnv ("Path " ++ p ++ " is outside sandbox /workspace")
              "ValueError" ""], 0, fs⟩
        ∧ scriptListFiles (some p) fs =
          ⟨[.failEnv ("Path " ++ p ++ " is outside sandbox /workspace")
              "ValueError" ""], 0, fs⟩) := by
  have hne : p ≠ "" := by
    rintro rfl
    rw [resolvedAgainst_empty, hBase] at hOut
    simp [Bool.eq_false_iff] at hOut
  have hnone := (ensureWithinSandbox_eq_none_iff base (parsePath p)).mpr hOut
  refine ⟨?_, ?_, ?_, ?_⟩
  · simp [readFileTool, hne, hnone]
  · simp [writeFileTool, hne, hnone]
  · simp [listFilesTool, hnone]
  · intro hOut2
    refine ⟨?_, ?_, ?_⟩
    · simp [scriptReadFile, hne, hOut2]
    · simp [scriptWriteFile, hne, hOut2]
    · simp [scriptListFiles, hOut2]

/-- Containment witness: `../../etc/passwd` from root `/sandbox` escapes and
every operation reports containment with the filesystem unchanged. -/
theorem c1_path_containment_witness :
    readFileTool ["sandbox"] "../../etc/passwd" ⟨[], []⟩ =
      (.error .containment, ⟨[], []⟩)
    ∧ scriptWriteFile (some "../../etc/passwd") (some "x") ⟨[], []⟩ =
      ⟨[.failEnv "Path ../../etc/passwd is outside sandbox /workspace"
          "ValueError" ""], 0, ⟨[], []⟩⟩ := by
  have h := c1_path_containment ["sandbox"] (by decide) "../../etc/passwd" "x"
    ⟨[], []⟩ (by decide)
  exact ⟨h.1, (h.2.2.2 (by decide)).2.1⟩

/-! ## C8: envelope protocol -/

/-- **C8.** Every generated script prints exactly one JSON result envelope
line and exits 0 regardless of success or failure; the executor treats a
runtime-reported error, a nonzero (or missing) exit code, or empty standard
output as fatal, and otherwise parses the envelope and either returns its
result or raises with the decoded error kind/message/trace. -/
theorem c8_envelope_protocol :
    (∀ fp c fs, (scriptWriteFile fp c fs).out.length = 1
      ∧ (scriptWriteFile fp c fs).exitCode = 0)
    ∧ (∀ fp fs, (scriptReadFile fp fs).out.length = 1
      ∧ (scriptReadFile fp fs).exitCode = 0)
    ∧ (∀ dp fs, (scriptListFiles dp fs).out.length = 1
      ∧ (scriptListFiles dp fs).exitCode = 0)
    ∧ (∀ r msg, r.error = some msg →
        executorDecode r = .error (.containerError msg))
    ∧ (∀ r, r.error = none → r.exit_code.getD (-1) ≠ 0 →
        executorDecode r = .error (.nonzeroExit (r.exit_code.getD (-1))))
    ∧ (∀ r, r.error = none → r.exit_code.getD (-1) = 0 → r.stdout = [] →
        executorDecode r = .error .noOutput)
    ∧ (∀ r env, r.error = none → r.exit_code.getD (-1) = 0 → r.stdout = [env] →
        env.success = true → executorDecode r = .ok env.result)
    ∧ (∀ r env e, r.error = none → r.exit_code.getD (-1) = 0 → r.stdout = [env] →
        env.success = false → env.error = some e →
        executorDecode r = .error (.toolFailed e.type e.error e.traceback)) := by
  refine ⟨?_, ?_, ?_, ?_, ?_, ?_, ?_, ?_⟩
  · intro fp c fs
    simp only [scriptWriteFile]
    repeat' split
    all_goals exact ⟨rfl, rfl⟩
  · intro fp fs
    simp only [scriptReadFile]
    repeat' split
    all_goals exact ⟨rfl, rfl⟩
  · intro dp fs
    simp only [scriptListFiles]
    repeat' split
    all_goals exact ⟨rfl, rfl⟩
  · intro r msg h
    simp [executorDecode, executeScriptInContainer, h]
  · intro r h hc
    simp [executorDecode, executeScriptInContainer, h, hc]
  · intro r h hc hs
    simp [executorDecode, executeScriptInContainer, deserializeResult, h, hc, hs]
  · intro r env h hc hs henv
    simp [executorDecode, executeScriptInContainer, deserializeResult, h, hc, hs, henv]
  · intro r env e h hc hs henv herr
    simp [executorDecode, executeScriptInContainer, deserializeResult, h, hc, hs,
      henv, herr]

/-- Envelope-protocol witness at concrete inputs: a missing-file read inside
the container still yields one envelope line and exit 0, and the executor's
checks fire on a concrete failing and a concrete succeeding exec result. -/
theorem c8_envelope_protocol_witness :
    ((scriptReadFile (some "absent.txt") ⟨[["workspace"]], []⟩).out.length = 1
      ∧ (scriptReadFile (some "absent.txt") ⟨[["workspace"]], []⟩).exitCode = 0)
    ∧ executorDecode ⟨some 1, [], "boom", none⟩ = .error (.nonzeroExit 1)
    ∧ executorDecode ⟨some 0, [.okEnv (.str "hello")], "", none⟩ =
        .ok (some (.str "hello")) := by
  refine ⟨c8_envelope_protocol.2.1 (some "absent.txt") ⟨[["workspace"]], []⟩, ?_, ?_⟩
  · exact c8_envelope_protocol.2.2.2.2.1 ⟨some 1, [], "boom", none⟩ rfl (by decide)
  · exact c8_envelope_protocol.2.2.2.2.2.2.1 ⟨some 0, [.okEnv (.str "hello")], "", none⟩
      (.okEnv (.str "hello")) rfl (by decide) rfl rfl

/-! ## C10: write_file creates missing parents -/

/-- Postcondition of a successful write of `content` at `target` under `root`:
the file holds the content, every parent directory of the target now exists,
and any directory that did not exist before lies inside the root. -/
def writePostOk (root target : List String) (content : String) (fs fs' : FS) : Prop :=
  fs'.getFile target = some content
  ∧ (∀ q ∈ prefixes target.dropLast, q ∈ fs'.dirs)
  ∧ (∀ q ∈ fs'.dirs, q ∈ fs.dirs ∨ root <+: q)

theorem newDirs_within_root {root target : List String} (fs : FS)
    (hRoot : ∀ q ∈ prefixes root, q ∈ fs.dirs) (hIn : root <+: target) :
    ∀ q ∈ (fs.mkdirParents target.dropLast).dirs, q ∈ fs.dirs ∨ root <+: q := by
  intro q hq
  rcases (mem_mkdirParents_dirs fs _ q).mp hq with h | h
  · exact Or.inl h
  · have hq' : q <+: target := (mem_prefixes.mp h).trans (List.dropLast_prefix target)
    rcases List.prefix_or_prefix_of_prefix hq' hIn with h' | h'
    · exact Or.inl (hRoot q (mem_prefixes.mpr h'))
    · exact Or.inr h'

theorem writePostOk_mkdir_set (root target : List String) (content : String)
    (fs : FS) (hRoot : ∀ q ∈ prefixes root, q ∈ fs.dirs) (hIn : root <+: target) :
    writePostOk root target content fs
      ((fs.mkdirParents target.dropLast).setFile target content) := by
  refine ⟨getFile_setFile _ _ _, ?_, ?_⟩
  · intro q hq
    rw [setFile_dirs]
    exact (mem_mkdirParents_dirs fs _ q).mpr (Or.inr hq)
  · intro q hq
    rw [setFile_dirs] at hq
    exact newDirs_within_root fs hRoot hIn q hq

/-- **C10.** For every in-root target path, `write_file` creates the missing
parent directories (all inside the workspace root, given that the root's own
ancestor chain already exists) and writes the file, returning
`bytes_written = content.length` — for the directory-backend tool and for the
container-executor generated script alike. -/
theorem c10_write_creates_parents (base : List String) (p content : String)
    (fs : FS) (hp : p ≠ "")
    (hIn : base.isPrefixOf (resolvedAgainst base (parsePath p)) = true)
    (hRoot : ∀ q ∈ prefixes base, q ∈ fs.dirs) :
    (∃ fs', writeFileTool base p content fs =
        (.ok ⟨resolvedAgainst base (parsePath p), content.length⟩, fs')
      ∧ writePostOk base (resolvedAgainst base (parsePath p)) content fs fs')
    ∧ (scriptBase.isPrefixOf (resolvedAgainst scriptBase (parsePath p)) = true →
        (∀ q ∈ prefixes scriptBase, q ∈ fs.dirs) →
        ∃ fs', scriptWriteFile (some p) (some content) fs =
          ⟨[.okEnv (.writeRes (resolvedAgainst scriptBase (parsePath p))
              content.length)], 0, fs'⟩
        ∧ writePostOk scriptBase (resolvedAgainst scriptBase (parsePath p))
            content fs fs') := by
  constructor
  · refine ⟨(fs.mkdirParents (resolvedAgainst base (parsePath p)).dropLast).setFile
      (resolvedAgainst base (parsePath p)) content, ?_, ?_⟩
    · have hsome := (ensureWithinSandbox_eq_some_iff base (parsePath p)).mpr hIn
      simp [writeFileTool, hp, hsome]
    · exact writePostOk_mkdir_set base _ content fs hRoot
        (List.isPrefixOf_iff_prefix.mp hIn)
  · intro hIn2 hRoot2
    refine ⟨(fs.mkdirParents (resolvedAgainst scriptBase (parsePath p)).dropLast).setFile
      (resolvedAgainst scriptBase (parsePath p)) content, ?_, ?_⟩
    · simp [scriptWriteFile, hp, hIn2]
    · exact writePostOk_mkdir_set scriptBase _ content fs hRoot2
        (List.isPrefixOf_iff_prefix.mp hIn2)

/-- Write witness: `a/b/out.txt` under root `/workspace` (parents absent)
succeeds with `bytes_written = 5`. -/
theorem c10_write_creates_parents_witness :
    ∃ fs', writeFileTool ["workspace"] "a/b/out.txt" "hello"
        ⟨[[], ["workspace"]], []⟩ =
      (.ok ⟨["workspace", "a", "b", "out.txt"], 5⟩, fs')
    ∧ writePostOk ["workspace"] ["workspace", "a", "b", "out.txt"] "hello"
        ⟨[[], ["workspace"]], []⟩ fs' := by
  have h := (c10_write_creates_parents ["workspace"] "a/b/out.txt" "hello"
    ⟨[[], ["workspace"]], []⟩ (by decide) (by decide) (by decide)).1
  simpa using h

/-! ## Image builder (`docker_image_builder.py`)

The image tag is `skill-{sanitized name}-{sha256(requirements)[:12]}`.
SHA-256 (Python's `hashlib.sha256`) is implemented here over byte lists with
32-bit words as naturals reduced mod `2^32`, structurally recursive so that
concrete tags evaluate inside the kernel. -/

/-- Lexicographic byte-wise comparison of strings (Python's string `<=` on
code points), kept structural so that sorting concrete lists evaluates. -/
def charListLe : List Char → List Char → Bool
  | [], _ => true
  | _ :: _, [] => false
  | a :: as, b :: bs =>
    if a < b then true else if b < a then false else charListLe as bs

/-- String comparison used by Python's `sorted`. -/
def strLeb (a b : String) : Bool := charListLe a.data b.data

theorem charListLe_total : ∀ a b, charListLe a b = true ∨ charListLe b a = true
  | [], _ => Or.inl rfl
  | _ :: _, [] => Or.inr rfl
  | a :: as, b :: bs => by
    by_cases hab : a < b
    · exact Or.inl (by simp [charListLe, hab])
    · by_cases hba : b < a
      · exact Or.inr (by simp [charListLe, hba, asymm hba])
      · have : a = b := le_antisymm (not_lt.mp hba) (not_lt.mp hab)
        subst this
        rcases charListLe_total as bs with h | h
        · exact Or.inl (by simp [charListLe, lt_irrefl, h])
        · exact Or.inr (by simp [charListLe, lt_irrefl, h])

theorem charListLe_trans : ∀ {a b c}, charListLe a b = true →
    charListLe b c = true → charListLe a c = true
  | [], _, _, _, _ => rfl
  | _ :: _, [], _, h1, _ => by simp [charListLe] at h1
  | _ :: _, _ :: _, [], _, h2 => by simp [charListLe] at h2
  | a :: as, b :: bs, c :: cs, h1, h2 => by
    simp only [charListLe] at h1 h2 ⊢
    by_cases hab : a < b
    · by_cases hbc : b < c
      · simp [hab.trans hbc]
      · by_cases hcb : c < b
        · simp [hbc, hcb] at h2
        · have hbceq : b = c := le_antisymm (not_lt.mp hcb) (not_lt.mp hbc)
          subst hbceq
          simp [hab]
    · by_cases hba : b < a
      · simp [hab, hba] at h1
      · have habeq : a = b := le_antisymm (not_lt.mp hba) (not_lt.mp hab)
        subst habeq
        by_cases hac : a < c
        · simp [hac]
        · by_cases hca : c < a
          · simp [hac, hca] at h2
          · have haceq : a = c := le_antisymm (not_lt.mp hca) (not_lt.mp hac)
            subst haceq
            simp only [lt_irrefl, if_false, reduceIte] at h1 h2 ⊢
            exact charListLe_trans h1 h2

theorem charListLe_antisymm : ∀ {a b}, charListLe a b = true →
    charListLe b a = true → a = b
  | [], [], _, _ => rfl
  | [], _ :: _, _, h2 => by simp [charListLe] at h2
  | _ :: _, [], h1, _ => by simp [charListLe] at h1
  | a :: as, b :: bs, h1, h2 => by
    simp only [charListLe] at h1 h2
    rcases lt_trichotomy a b with hab | hab | hab
    · simp [hab, asymm hab] at h2
    · subst hab
      simp [lt_irrefl] at h1 h2
      rw [charListLe_antisymm h1 h2]
    · simp [hab, asymm hab] at h1

/-- The comparison relation of Python's `sorted` on strings, as a `Prop`. -/
def StrLe (a b : String) : Prop := strLeb a b = true

instance : DecidableRel StrLe := fun a b => inferInstanceAs (Decidable (_ = true))

instance : IsTotal String StrLe :=
  ⟨fun a b => charListLe_total a.data b.data⟩

instance : IsTrans String StrLe :=
  ⟨fun _ _ _ h1 h2 => charListLe_trans h1 h2⟩

instance : IsAntisymm String StrLe :=
  ⟨fun a b h1 h2 => by
    rcases a with ⟨da⟩; rcases b with ⟨db⟩
    exact congrArg String.mk (charListLe_antisymm h1 h2)⟩

/-- Python's `sorted` on a list of strings. -/
def pySorted (l : List String) : List String := List.insertionSort StrLe l

theorem pySorted_eq_of_perm {p1 p2 : List String} (h : p1.Perm p2) :
    pySorted p1 = pySorted p2 :=
  List.eq_of_perm_of_sorted
    ((List.perm_insertionSort StrLe p1).trans
      (h.trans (List.perm_insertionSort StrLe p2).symm))
    (List.sorted_insertionSort StrLe p1) (List.sorted_insertionSort StrLe p2)

/-- Python's `"sep".join(parts)`. -/
def joinSep (sep : String) : List String → String
  | [] => ""
  | [x] => x
  | x :: xs => x ++ sep ++ joinSep sep xs

/-- The name sanitisation in `_generate_image_tag`: lower-case, spaces and
underscores to dashes, keep only alphanumerics and dashes. -/
def sanitizeName (name : String) : String :=
  String.mk (((name.data.map Char.toLower).map
    (fun c => if c = ' ' ∨ c = '_' then '-' else c)).filter
    (fun c => c.isAlphanum ∨ c = '-'))

/-- `_requirements_to_string`: base image, declared interpreter version
(default empty), then the sorted packages joined by a pipe if nonempty, then
the sorted system packages with a sys: prefix if nonempty, all joined by
newlines. -/
def requirementsToString (baseImage pythonVersion : String)
    (packages systemPackages : List String) : String :=
  let parts := [baseImage, pythonVersion]
  let parts := if packages.isEmpty then parts
    else parts ++ [joinSep "|" (pySorted packages)]
  let parts := if systemPackages.isEmpty then parts
    else parts ++ ["sys:" ++ joinSep "|" (pySorted systemPackages)]
  joinSep "\n" parts

/-! ### SHA-256 -/

/-- UTF-8 encoding of one character (Python's `str.encode()`). -/
def utf8EncodeChar (c : Char) : List Nat :=
  let n := c.toNat
  if n < 128 then [n]
  else if n < 2048 then [192 + n / 64, 128 + n % 64]
  else if n < 65536 then [224 + n / 4096, 128 + (n / 64) % 64, 128 + n % 64]
  else [240 + n / 262144, 128 + (n / 4096) % 64, 128 + (n / 64) % 64, 128 + n % 64]

/-- UTF-8 encoding of a string as a byte list. -/
def utf8Encode (s : String) : List Nat := (s.data.map utf8EncodeChar).flatten

/-- Addition mod `2^32`. -/
def add32 (a b : Nat) : Nat := (a + b) % 4294967296

/-- Right rotation of a 32-bit word. -/
def rotr32 (n x : Nat) : Nat :=
  Nat.lor (x >>> n) ((x <<< (32 - n)) % 4294967296)

/-- Bitwise complement of a 32-bit word. -/
def not32 (x : Nat) : Nat := Nat.xor x 4294967295

/-- Three-way xor. -/
def xor3 (a b c : Nat) : Nat := Nat.xor (Nat.xor a b) c

/-- The SHA-256 choice function. -/
def ch32 (x y z : Nat) : Nat := Nat.xor (Nat.land x y) (Nat.land (not32 x) z)

/-- The SHA-256 majority function. -/
def maj32 (x y z : Nat) : Nat :=
  Nat.xor (Nat.xor (Nat.land x y) (Nat.land x z)) (Nat.land y z)

/-- Σ0. -/
def bigSigma0 (x : Nat) : Nat := xor3 (rotr32 2 x) (rotr32 13 x) (rotr32 22 x)

/-- Σ1. -/
def bigSigma1 (x : Nat) : Nat := xor3 (rotr32 6 x) (rotr32 11 x) (rotr32 25 x)

/-- σ0. -/
def smallSigma0 (x : Nat) : Nat := xor3 (rotr32 7 x) (rotr32 18 x) (x >>> 3)

/-- σ1. -/
def smallSigma1 (x : Nat) : Nat := xor3 (rotr32 17 x) (rotr32 19 x) (x >>> 10)

/-- The SHA-256 round constants. -/
def K256 : List Nat :=
  [1116352408, 1899447441, 3049323471, 3921009573,
   961987163, 1508970993, 2453635748, 2870763221,
   3624381080, 310598401, 607225278, 1426881987,
   1925078388, 2162078206, 2614888103, 3248222580,
   3835390401, 4022224774, 264347078, 604807628,
   770255983, 1249150122, 1555081692, 1996064986,
   2554220882, 2821834349, 2952996808, 3210313671,
   3336571891, 3584528711, 113926993, 338241895,
   666307205, 773529912, 1294757372, 1396182291,
   1695183700, 1986661051, 2177026350, 2456956037,
   2730485921, 2820302411, 3259730800, 3345764771,
   3516065817, 3600352804, 4094571909, 275423344,
   430227734, 506948616, 659060556, 883997877,
   958139571, 1322822218, 1537002063, 1747873779,
   1955562222, 2024104815, 2227730452, 2361852424,
   2428436474, 2756734187, 3204031479, 3329325298]

/-- The SHA-256 working state (eight 32-bit words). -/
structure Hash8 where
  a : Nat
  b : Nat
  c : Nat
  d : Nat
  e : Nat
  f : Nat
  g : Nat
  h : Nat
deriving DecidableEq, Repr

/-- The SHA-256 initial hash value. -/
def sha256Init : Hash8 :=
  ⟨1779033703, 3144134277, 1013904242, 2773480762,
   1359893119, 2600822924, 528734635, 1541459225⟩

/-- Big-endian 8-byte encoding of the bit length. -/
def lengthBytes (n : Nat) : List Nat :=
  (List.range 8).map fun i => (n >>> (8 * (7 - i))) % 256

/-- SHA-256 message padding: append 0x80, zero bytes to 56 mod 64, and the
64-bit big-endian bit length. -/
def padMessage (msg : List Nat) : List Nat :=
  let len := msg.length
  let zeros := (64 - ((len + 9) % 64)) % 64
  msg ++ [128] ++ List.replicate zeros 0 ++ lengthBytes (len * 8)

/-- Split a byte list into 64-byte blocks (fuel-structural so it evaluates). -/
def toBlocksAux : Nat → List Nat → List (List Nat)
  | 0, _ => []
  | fuel + 1, l => if l.isEmpty then [] else l.take 64 :: toBlocksAux fuel (l.drop 64)

/-- The 64-byte blocks of a byte list. -/
def toBlocks (l : List Nat) : List (List Nat) := toBlocksAux l.length l

/-- The sixteen 32-bit big-endian words of one 64-byte block. -/
def toWords (block : List Nat) : List Nat :=
  (List.range 16).map fun i =>
    (block.getD (4 * i) 0) <<< 24 + (block.getD (4 * i + 1) 0) <<< 16 +
      (block.getD (4 * i + 2) 0) <<< 8 + block.getD (4 * i + 3) 0

/-- The 64-entry SHA-256 message schedule of one block. -/
def msgSchedule (w16 : List Nat) : List Nat :=
  (List.range 64).foldl
    (fun w t =>
      if t < 16 then w ++ [w16.getD t 0]
      else
        w ++ [add32 (add32 (smallSigma1 (w.getD (t - 2) 0)) (w.getD (t - 7) 0))
          (add32 (smallSigma0 (w.getD (t - 15) 0)) (w.getD (t - 16) 0))])
    []

/-- One SHA-256 compression round. -/
def compressStep (w : List Nat) (s : Hash8) (t : Nat) : Hash8 :=
  let t1 := add32 s.h (add32 (bigSigma1 s.e)
    (add32 (ch32 s.e s.f s.g) (add32 (K256.getD t 0) (w.getD t 0))))
  let t2 := add32 (bigSigma0 s.a) (maj32 s.a s.b s.c)
  ⟨add32 t1 t2, s.a, s.b, s.c, add32 s.d t1, s.e, s.f, s.g⟩

/-- SHA-256 compression of one block into the running hash. -/
def compress (h0 : Hash8) (block : List Nat) : Hash8 :=
  let w := msgSchedule (toWords block)
  let s := (List.range 64).foldl (compressStep w) h0
  ⟨add32 h0.a s.a, add32 h0.b s.b, add32 h0.c s.c, add32 h0.d s.d,
   add32 h0.e s.e, add32 h0.f s.f, add32 h0.g s.g, add32 h0.h s.h⟩

/-- Big-endian bytes of one 32-bit word. -/
def wordBytes (w : Nat) : List Nat :=
  [(w >>> 24) % 256, (w >>> 16) % 256, (w >>> 8) % 256, w % 256]

/-- SHA-256 digest (32 bytes) of a byte list. -/
def sha256 (msg : List Nat) : List Nat :=
  let hfin := (toBlocks (padMessage msg)).foldl compress sha256Init
  wordBytes hfin.a ++ wordBytes hfin.b ++ wordBytes hfin.c ++ wordBytes hfin.d ++
    wordBytes hfin.e ++ wordBytes hfin.f ++ wordBytes hfin.g ++ wordBytes hfin.h

/-- Lower-case hex digit. -/
def hexChar (n : Nat) : Char :=
  if n < 10 then Char.ofNat (48 + n) else Char.ofNat (87 + n)

/-- Two hex characters of one byte. -/
def byteHex (b : Nat) : List Char := [hexChar (b / 16), hexChar (b % 16)]

/-- The characters of Python's `hashlib.sha256(s.encode()).hexdigest()`. -/
def sha256hexChars (s : String) : List Char :=
  ((sha256 (utf8Encode s)).map byteHex).flatten

/-- `_generate_image_tag`: the tag is
skill-{sanitized name}-{first 12 hex digits of the requirements digest}. -/
def generateImageTag (name baseImage pythonVersion : String)
    (packages systemPackages : List String) : String :=
  "skill-" ++ sanitizeName name ++ "-" ++
    String.mk ((sha256hexChars
      (requirementsToString baseImage pythonVersion packages systemPackages)).take 12)

set_option maxRecDepth 4000 in
/-- SHA-256 test vector: the digest of the empty message. -/
theorem sha256_empty_vector :
    String.mk (sha256hexChars "") =
      "e3b0c44298fc1c149afbf4c8996fb92427ae41e4649b934ca495991b7852b855" := by
  decide

set_option maxRecDepth 4000 in
/-- SHA-256 test vector: the digest of "abc". -/
theorem sha256_abc_vector :
    String.mk (sha256hexChars "abc") =
      "ba7816bf8f01cfea414140de5dae2223b00361a396177a9cb410ff61f20015ad" := by
  decide

/-! ## C2: image identity -/

theorem perm_isEmpty {α : Type} {l1 l2 : List α} (h : l1.Perm l2) :
    l1.isEmpty = l2.isEmpty := by
  have := h.length_eq
  rcases l1 with _ | ⟨a, t⟩ <;> rcases l2 with _ | ⟨b, u⟩ <;> simp_all

theorem requirementsToString_perm (baseImage pyV : String)
    {p1 p2 s1 s2 : List String} (hp : p1.Perm p2) (hs : s1.Perm s2) :
    requirementsToString baseImage pyV p1 s1 =
      requirementsToString baseImage pyV p2 s2 := by
  unfold requirementsToString
  rw [pySorted_eq_of_perm hp, pySorted_eq_of_perm hs, perm_isEmpty hp,
    perm_isEmpty hs]

theorem newlineData : ("\n" : String).data = ['\n'] := rfl

theorem pipeData : ("|" : String).data = ['|'] := rfl

theorem takeWhile_append_sep {x r : List Char} (hx : '|' ∉ x) :
    (x ++ '|' :: r).takeWhile (fun c => c ≠ '|') = x := by
  induction x with
  | nil => simp
  | cons a as ih =>
    have ha : a ≠ '|' := fun h => hx (h ▸ List.mem_cons_self a as)
    have ha' : decide (a ≠ '|') = true := by simp [ha]
    rw [List.cons_append, List.takeWhile_cons, ha',
      ih (fun h => hx (List.mem_cons_of_mem a h))]
    simp

theorem pySorted_nil : pySorted [] = [] := rfl

theorem pySorted_ne_nil {p : List String} (hp : p ≠ []) : pySorted p ≠ [] := by
  intro h
  apply hp
  have hperm := List.perm_insertionSort StrLe p
  rw [show List.insertionSort StrLe p = pySorted p from rfl, h] at hperm
  exact hperm.symm.eq_nil

theorem mem_pySorted {x : String} {p : List String} (h : x ∈ pySorted p) : x ∈ p :=
  (List.perm_insertionSort StrLe p).mem_iff.mp h

theorem joinSep_pipe_inj : ∀ {l1 l2 : List String}, l1 ≠ [] → l2 ≠ [] →
    (∀ x ∈ l1, ¬ '|' ∈ x.data) → (∀ x ∈ l2, ¬ '|' ∈ x.data) →
    joinSep "|" l1 = joinSep "|" l2 → l1 = l2
  | [], _, h1, _, _, _, _ => absurd rfl h1
  | _ :: _, [], _, h2, _, _, _ => absurd rfl h2
  | [x], [y], _, _, _, _, h => by
    simpa [joinSep] using h
  | [x], y :: y2 :: ys, _, _, hp1, _, h => by
    exfalso
    apply hp1 x (List.mem_singleton.mpr rfl)
    have hd := congrArg String.data h
    simp only [joinSep, String.data_append, pipeData, List.append_assoc,
      List.singleton_append] at hd
    rw [hd]
    exact List.mem_append_right _ (List.mem_cons_self _ _)
  | x :: x2 :: xs, [y], _, _, _, hp2, h => by
    exfalso
    apply hp2 y (List.mem_singleton.mpr rfl)
    have hd := congrArg String.data h.symm
    simp only [joinSep, String.data_append, pipeData, List.append_assoc,
      List.singleton_append] at hd
    rw [hd]
    exact List.mem_append_right _ (List.mem_cons_self _ _)
  | x :: x2 :: xs, y :: y2 :: ys, _, _, hp1, hp2, h => by
    have hd := congrArg String.data h
    simp only [joinSep, String.data_append, pipeData, List.append_assoc,
      List.singleton_append] at hd
    have hx : '|' ∉ x.data := hp1 x (List.mem_cons_self _ _)
    have hy : '|' ∉ y.data := hp2 y (List.mem_cons_self _ _)
    have hxy : x.data = y.data := by
      have := congrArg (List.takeWhile (fun c => c ≠ '|')) hd
      rwa [takeWhile_append_sep hx, takeWhile_append_sep hy] at this
    rw [hxy] at hd
    have htail := List.append_cancel_left hd
    have htail2 : (joinSep "|" (x2 :: xs)).data = (joinSep "|" (y2 :: ys)).data :=
      List.tail_eq_of_cons_eq htail
    have hrec := @joinSep_pipe_inj (x2 :: xs) (y2 :: ys)
      (List.cons_ne_nil _ _) (List.cons_ne_nil _ _)
      (fun z hz => hp1 z (List.mem_cons_of_mem x hz))
      (fun z hz => hp2 z (List.mem_cons_of_mem y hz))
      (String.ext htail2)
    rw [String.ext hxy, hrec]

theorem strAppendCancelLeft {a b c : String} (h : a ++ b = a ++ c) : b = c := by
  have hd := congrArg String.data h
  simp only [String.data_append] at hd
  exact String.ext (List.append_cancel_left hd)

theorem strAppendCancelRight {a b c : String} (h : a ++ c = b ++ c) : a = b := by
  have hd := congrArg String.data h
  simp only [String.data_append] at hd
  exact String.ext (List.append_cancel_right hd)

theorem joinSep2 (sep a b : String) : joinSep sep [a, b] = a ++ sep ++ b := rfl

theorem joinSep3 (sep a b c : String) :
    joinSep sep [a, b, c] = a ++ sep ++ (b ++ sep ++ c) := rfl

theorem joinSep4 (sep a b c d : String) :
    joinSep sep [a, b, c, d] = a ++ sep ++ (b ++ sep ++ (c ++ sep ++ d)) := rfl

theorem newlineLength : ("\n" : String).length = 1 := rfl

theorem requirementsToString_ne_of_sorted_ne (baseImage pyV : String)
    (p1 p2 s : List String) (hne : pySorted p1 ≠ pySorted p2)
    (h1 : ∀ x ∈ p1, ¬ '|' ∈ x.data) (h2 : ∀ x ∈ p2, ¬ '|' ∈ x.data) :
    requirementsToString baseImage pyV p1 s ≠
      requirementsToString baseImage pyV p2 s := by
  intro heq
  by_cases e1 : p1 = [] <;> by_cases e2 : p2 = [] <;>
    by_cases es : s = []
  · exact hne (by rw [e1, e2])
  · exact hne (by rw [e1, e2])
  · subst e1; subst es
    simp only [requirementsToString, List.isEmpty_nil, e2, List.isEmpty_eq_true,
      if_true, if_false, reduceIte, List.cons_append, List.nil_append,
      List.append_nil] at heq
    rw [joinSep2, joinSep3] at heq
    have := congrArg String.length heq
    simp only [String.length_append, newlineLength] at this
    omega
  · subst e1
    simp only [requirementsToString, List.isEmpty_nil, e2, es,
      List.isEmpty_eq_true, if_true, if_false, reduceIte, List.cons_append,
      List.nil_append, List.append_nil] at heq
    rw [joinSep3, joinSep4] at heq
    have := congrArg String.length heq
    simp only [String.length_append, newlineLength] at this
    omega
  · subst e2; subst es
    simp only [requirementsToString, List.isEmpty_nil, e1, List.isEmpty_eq_true,
      if_true, if_false, reduceIte, List.cons_append, List.nil_append,
      List.append_nil] at heq
    rw [joinSep3, joinSep2] at heq
    have := congrArg String.length heq
    simp only [String.length_append, newlineLength] at this
    omega
  · subst e2
    simp only [requirementsToString, List.isEmpty_nil, e1, es,
      List.isEmpty_eq_true, if_true, if_false, reduceIte, List.cons_append,
      List.nil_append, List.append_nil] at heq
    rw [joinSep4, joinSep3] at heq
    have := congrArg String.length heq
    simp only [String.length_append, newlineLength] at this
    omega
  · subst es
    apply hne
    apply joinSep_pipe_inj (pySorted_ne_nil e1) (pySorted_ne_nil e2)
      (fun z hz => h1 z (mem_pySorted hz)) (fun z hz => h2 z (mem_pySorted hz))
    simp only [requirementsToString, e1, e2, List.isEmpty_nil,
      List.isEmpty_eq_true, if_true, if_false, reduceIte, List.cons_append,
      List.nil_append, List.append_nil] at heq
    rw [joinSep3, joinSep3] at heq
    exact strAppendCancelLeft (strAppendCancelLeft heq)
  · apply hne
    apply joinSep_pipe_inj (pySorted_ne_nil e1) (pySorted_ne_nil e2)
      (fun z hz => h1 z (mem_pySorted hz)) (fun z hz => h2 z (mem_pySorted hz))
    simp only [requirementsToString, e1, e2, es, List.isEmpty_nil,
      List.isEmpty_eq_true, if_true, if_false, reduceIte, List.cons_append,
      List.nil_append, List.append_nil] at heq
    rw [joinSep4, joinSep4] at heq
    have hmid := strAppendCancelLeft (strAppendCancelLeft heq)
    exact strAppendCancelRight (strAppendCancelRight hmid)

/-- **C2 is false as stated**: the image identity also hashes in the skill
name; two skills with identical base image, interpreter version, package set
and system-package set but different names receive different identities. -/
theorem c2_image_identity_counterexample :
    generateImageTag "alpha" "python:3.11-slim" "" ["requests"] [] ≠
      generateImageTag "beta" "python:3.11-slim" "" ["requests"] [] := by
  decide

/-- **C2 (amended).** The image identity also incorporates the sanitized
skill name: for skills whose sanitized names agree, identical base image and
interpreter version and package / system-package lists that agree up to
reordering give the identical image identity; and declared package lists that
differ even after sorting (with pipe-free package names) give different
canonical requirement strings — the hash inputs differ, so the identities
differ whenever the 12-hex-digit truncated digests do. -/
theorem c2_image_identity (n1 n2 baseImage pyV : String)
    (p1 p2 s1 s2 : List String) :
    (sanitizeName n1 = sanitizeName n2 → p1.Perm p2 → s1.Perm s2 →
      generateImageTag n1 baseImage pyV p1 s1 =
        generateImageTag n2 baseImage pyV p2 s2)
    ∧ (∀ s : List String, pySorted p1 ≠ pySorted p2 →
        (∀ x ∈ p1, ¬ '|' ∈ x.data) → (∀ x ∈ p2, ¬ '|' ∈ x.data) →
        requirementsToString baseImage pyV p1 s ≠
          requirementsToString baseImage pyV p2 s) := by
  constructor
  · intro hsan hp hs
    unfold generateImageTag
    rw [hsan, requirementsToString_perm baseImage pyV hp hs]
  · intro s hne h1 h2
    exact requirementsToString_ne_of_sorted_ne baseImage pyV p1 p2 s hne h1 h2

set_option maxRecDepth 4000 in
/-- Image-identity witness: two skill names that sanitize alike with permuted
package lists give the same tag, and genuinely different package sets give
different requirement strings. -/
theorem c2_image_identity_witness :
    generateImageTag "Data Skill" "python:3.11-slim" "3.11"
      ["requests", "numpy"] [] =
      generateImageTag "data_skill" "python:3.11-slim" "3.11"
        ["numpy", "requests"] []
    ∧ requirementsToString "python:3.11-slim" "3.11" ["requests"] [] ≠
        requirementsToString "python:3.11-slim" "3.11" ["numpy"] [] := by
  constructor
  · exact (c2_image_identity "Data Skill" "data_skill" "python:3.11-slim"
      "3.11" ["requests", "numpy"] ["numpy", "requests"] [] []).1
      (by decide) (List.Perm.swap _ _ _) (List.Perm.refl _)
  · exact (c2_image_identity "Data Skill" "data_skill" "python:3.11-slim"
      "3.11" ["requests"] ["numpy"] [] []).2 [] (by decide) (by decide)
      (by decide)

/-! ## Resource manager (`resource_manager.py`)

Machine floats in the Python are modelled by rationals; Python's
round-half-even `round(x, 2)` is modelled exactly on rationals. -/

/-- Rational addition via `Rat.divInt` (kernel-computable; equal to `+` by
`qAdd_eq`). -/
def qAdd (a b : ℚ) : ℚ :=
  Rat.divInt (a.num * b.den + b.num * a.den) ((a.den : ℤ) * (b.den : ℤ))

/-- Rational subtraction via `Rat.divInt`. -/
def qSub (a b : ℚ) : ℚ :=
  Rat.divInt (a.num * b.den - b.num * a.den) ((a.den : ℤ) * (b.den : ℤ))

/-- Rational multiplication via `Rat.divInt`. -/
def qMul (a b : ℚ) : ℚ := Rat.divInt (a.num * b.num) ((a.den : ℤ) * (b.den : ℤ))

/-- Rational division via `Rat.divInt`. -/
def qDiv (a b : ℚ) : ℚ := qMul a (Rat.divInt (b.den : ℤ) b.num)

theorem qAdd_eq (a b : ℚ) : qAdd a b = a + b := by
  rw [qAdd]
  conv_rhs => rw [← Rat.divInt_self a, ← Rat.divInt_self b]
  rw [Rat.divInt_add_divInt _ _ (Int.natCast_ne_zero.mpr a.den_nz)
    (Int.natCast_ne_zero.mpr b.den_nz)]

theorem qSub_eq (a b : ℚ) : qSub a b = a - b := by
  rw [qSub]
  conv_rhs => rw [← Rat.divInt_self a, ← Rat.divInt_self b]
  rw [Rat.divInt_sub_divInt _ _ (Int.natCast_ne_zero.mpr a.den_nz)
    (Int.natCast_ne_zero.mpr b.den_nz)]

theorem qMul_eq (a b : ℚ) : qMul a b = a * b := by
  rw [qMul]
  conv_rhs => rw [← Rat.divInt_self a, ← Rat.divInt_self b]
  rw [Rat.divInt_mul_divInt _ _ (Int.natCast_ne_zero.mpr a.den_nz)
    (Int.natCast_ne_zero.mpr b.den_nz)]

theorem qDiv_eq (a b : ℚ) : qDiv a b = a / b := by
  rw [qDiv, qMul_eq, ← Rat.inv_def', div_eq_mul_inv]

/-- Digits of a character run as a natural number. -/
def digitsToNat (l : List Char) : Nat :=
  l.foldl (fun a c => a * 10 + (c.toNat - 48)) 0

/-- Split a character list at the first dot. -/
def splitDot : List Char → List Char × Option (List Char)
  | [] => ([], none)
  | c :: t =>
    if c = '.' then ([], some t)
    else
      let r := splitDot t
      (c :: r.1, r.2)

/-- The integer-or-dot decimal forms accepted by the parser. -/
def pyFloatGo (sgn : ℚ) (cs : List Char) : Option ℚ :=
  let r := splitDot cs
  match r.2 with
  | none =>
    if r.1 ≠ [] ∧ r.1.all Char.isDigit then some (qMul sgn (digitsToNat r.1))
    else none
  | some fp =>
    if '.' ∈ fp then none
    else if (r.1 ++ fp) ≠ [] ∧ r.1.all Char.isDigit ∧ fp.all Char.isDigit then
      some (qMul sgn (qAdd (digitsToNat r.1 : ℚ)
        (qDiv (digitsToNat fp : ℚ) ((10 ^ fp.length : ℕ) : ℚ))))
    else none

/-- Python's `float(str)` on plain decimal literals (optional sign, digits,
at most one dot; exponents / inf / nan / underscores are outside the model —
no memory-limit string in this codebase uses them). -/
def pyFloat? (s : String) : Option ℚ :=
  match s.data with
  | '-' :: t => pyFloatGo (-1) t
  | '+' :: t => pyFloatGo 1 t
  | t => pyFloatGo 1 t

/-- Python's `int(str)`: optional sign and digits. -/
def pyIntOfStr? (s : String) : Option ℤ :=
  match s.data with
  | '-' :: t =>
    if t ≠ [] ∧ t.all Char.isDigit then some (-(digitsToNat t : ℤ)) else none
  | '+' :: t =>
    if t ≠ [] ∧ t.all Char.isDigit then some (digitsToNat t : ℤ) else none
  | t =>
    if t ≠ [] ∧ t.all Char.isDigit then some (digitsToNat t : ℤ) else none

/-- Python's `int(float)` truncation toward zero. -/
def pyIntTrunc (q : ℚ) : ℤ := q.num / (q.den : ℤ)

/-- Lower-casing a string character-wise (`str.lower()` for the ASCII strings
in scope). -/
def toLowerStr (s : String) : String := String.mk (s.data.map Char.toLower)

/-- Python's `str.strip()` (whitespace at both ends). -/
def pyStrip (s : String) : String :=
  String.mk (((s.data.dropWhile Char.isWhitespace).reverse.dropWhile
    Char.isWhitespace).reverse)

/-- Python's `str.endswith`. -/
def strEndsWith (s suffix : String) : Bool := suffix.data.isSuffixOf s.data

/-- The slice `s[:-n]`. -/
def strDropRight (s : String) (n : Nat) : String :=
  String.mk (s.data.take (s.data.length - n))

/-- The unit table of `_parse_memory_limit`, in the dictionary's insertion
(= iteration) order. -/
def memUnits : List (String × Nat) :=
  [("b", 1), ("k", 1024), ("kb", 1024), ("m", 1048576), ("mb", 1048576),
   ("g", 1073741824), ("gb", 1073741824), ("t", 1099511627776),
   ("tb", 1099511627776)]

/-- The unit loop of `_parse_memory_limit`: first suffix match whose numeric
prefix parses wins; a failed `float` falls through to the next unit. -/
def tryUnits : List (String × Nat) → String → Option ℤ
  | [], _ => none
  | (u, mult) :: rest, m =>
    if strEndsWith m u then
      match pyFloat? (strDropRight m u.length) with
      | some v => some (pyIntTrunc (qMul v (mult : ℚ)))
      | none => tryUnits rest m
    else tryUnits rest m

/-- `_parse_memory_limit`: empty means 0; lower-case and strip; try the unit
suffixes in order; then try a raw byte count; otherwise 0. -/
def parseMemoryLimit (s : String) : ℤ :=
  if s = "" then 0
  else
    let m := pyStrip (toLowerStr s)
    match tryUnits memUnits m with
    | some v => v
    | none =>
      match pyIntOfStr? m with
      | some n => n
      | none => 0

/-- The stats dictionary produced by `get_container_stats`, restricted to the
fields `enforce_limits` reads. -/
structure ContainerStats where
  cpu_percent : ℚ
  memory_usage : ℤ
  memory_limit : ℤ
  memory_percent : ℚ
  pids : ℤ
deriving DecidableEq, Repr

/-- `ResourceLimits` (`container_config.py`): all dimensions optional. -/
structure ResourceLimitsCfg where
  memory : Option String
  cpus : Option ℚ
  pids_limit : Option ℤ
deriving DecidableEq, Repr

/-- One recorded violation (the Python builds an f-string per dimension; the
model keeps the dimension and the compared quantities). -/
inductive Violation where
  /-- CPU percentage above cpus × 100 -/
  | cpu (used limit : ℚ)
  /-- memory bytes above the parsed configured limit -/
  | memoryBytes (used limit : ℤ)
  /-- memory percentage above the 95% threshold -/
  | memoryPercent (pct : ℚ)
  /-- process count above the pids limit -/
  | pids (count limit : ℤ)
deriving DecidableEq, Repr

/-- The violation scan of `enforce_limits`: CPU against `cpus * 100`, memory
against the parsed byte ceiling and the 95%-of-reported-limit threshold
(both only when a memory limit string is configured and truthy), and the
process count against a truthy `pids_limit`. -/
def enforceViolations (stats : ContainerStats) (limits : ResourceLimitsCfg) :
    List Violation :=
  (match limits.cpus with
   | some c =>
     if stats.cpu_percent > qMul c 100 then [.cpu stats.cpu_percent (qMul c 100)]
     else []
   | none => []) ++
  (match limits.memory with
   | some mstr =>
     if mstr ≠ "" then
       let mlb := parseMemoryLimit mstr
       (if mlb > 0 ∧ stats.memory_usage > mlb then
          [.memoryBytes stats.memory_usage mlb] else []) ++
       (if stats.memory_limit > 0 ∧ stats.memory_percent > 95 then
          [.memoryPercent stats.memory_percent] else [])
     else []
   | none => []) ++
  (match limits.pids_limit with
   | some pl => if pl ≠ 0 ∧ stats.pids > pl then [.pids stats.pids pl] else []
   | none => [])

/-- The per-container violation tracking map:
container id ↦ (first_exceeded timestamp, exceeded_count). -/
abbrev TrackMap := List (String × (ℚ × Nat))

/-- Tracking entry for a container, if present. -/
def trackLookup (m : TrackMap) (cid : String) : Option (ℚ × Nat) :=
  (m.find? (fun e => e.1 = cid)).map (·.2)

/-- Insert or replace a tracking entry. -/
def trackSet (m : TrackMap) (cid : String) (v : ℚ × Nat) : TrackMap :=
  (cid, v) :: m.filter (fun e => e.1 ≠ cid)

/-- Remove a tracking entry. -/
def trackRemove (m : TrackMap) (cid : String) : TrackMap :=
  m.filter (fun e => e.1 ≠ cid)

/-- The tracking update `enforce_limits` performs on any exceeded check:
keep the first-exceeded timestamp (or record now) and bump the count. -/
def trackBump (m : TrackMap) (cid : String) (now : ℚ) : ℚ × Nat :=
  match trackLookup m cid with
  | some (f, c) => (f, c + 1)
  | none => (now, 1)

/-- The `action_on_exceed` request. -/
inductive EnforceAction where
  | log | warn | stop | kill
deriving DecidableEq, Repr

/-- The result dictionary of `enforce_limits` plus the tracking state after
the call. -/
structure EnforceResult where
  exceeded : Bool
  violations : List Violation
  action_taken : String
  tracking : TrackMap
deriving DecidableEq, Repr

/-- `enforce_limits` downstream of the stats read: scan for violations; when
within limits clear the container's tracked state and take no action; when
exceeded, create-or-bump the tracking entry (whatever the action) and then
perform the requested action, reporting its outcome string.  `stopOk` /
`killOk` stand for whether the runtime stop / kill call succeeds. -/
def enforceLimits (cid : String) (stats : ContainerStats)
    (limits : ResourceLimitsCfg) (action : EnforceAction) (tracking : TrackMap)
    (now : ℚ) (stopOk killOk : Bool) : EnforceResult :=
  let violations := enforceViolations stats limits
  if violations.isEmpty then
    ⟨false, violations, "none", trackRemove tracking cid⟩
  else
    let tracking' := trackSet tracking cid (trackBump tracking cid now)
    let action_taken :=
      match action with
      | .log => "logged"
      | .warn => "warned"
      | .stop => if stopOk then "stopped" else "stop_failed"
      | .kill => if killOk then "killed" else "kill_failed"
    ⟨true, violations, action_taken, tracking'⟩

/-- One cumulative CPU sample (`cpu_stats` / `precpu_stats`): total container
CPU time, total system CPU time, and the length of the per-CPU usage list. -/
structure CpuSample where
  total_usage : Nat
  system_usage : Nat
  percpu_len : Nat
deriving DecidableEq, Repr

/-- Clamp to the interval [0, 100]. -/
def clampQ (v : ℚ) : ℚ := max 0 (min 100 v)

/-- The CPU-percentage computation in `get_container_stats`: both deltas must
be positive, the core count falls back to 1 when the per-CPU list is empty,
and the ratio is clamped to [0, 100]. -/
def computeCpuPercentRaw (cur pre : CpuSample) : ℚ :=
  if 0 < (cur.system_usage : ℤ) - (pre.system_usage : ℤ)
      ∧ 0 < (cur.total_usage : ℤ) - (pre.total_usage : ℤ) then
    clampQ (qMul (qMul (qDiv (((cur.total_usage : ℤ) - (pre.total_usage : ℤ) : ℤ) : ℚ)
      (((cur.system_usage : ℤ) - (pre.system_usage : ℤ) : ℤ) : ℚ))
      ((if cur.percpu_len = 0 then 1 else cur.percpu_len : ℕ) : ℚ)) 100)
  else 0

/-- Round half to even on the integers (Python's `round`). -/
def rhe (y : ℚ) : ℤ :=
  let n := ⌊y⌋
  let f := qSub y (n : ℚ)
  if f < Rat.divInt 1 2 then n
  else if Rat.divInt 1 2 < f then n + 1
  else if 2 ∣ n then n else n + 1

/-- Python's `round(x, 2)`. -/
def pyRound2 (x : ℚ) : ℚ := qDiv ((rhe (qMul x 100) : ℤ) : ℚ) 100

/-- The `cpu_percent` field of the stats dictionary:
`round(cpu_percent, 2)` of the clamped ratio. -/
def statsCpuPercent (cur pre : CpuSample) : ℚ :=
  pyRound2 (computeCpuPercentRaw cur pre)

/-! ## C5: enforcement thresholds -/

/-- The CPU dimension of the spec's comparison: usage above cpus × 100. -/
def CpuExceeded (stats : ContainerStats) (limits : ResourceLimitsCfg) : Prop :=
  ∃ c, limits.cpus = some c ∧ stats.cpu_percent > c * 100

/-- The absolute-byte memory dimension: usage above the parsed configured
ceiling. -/
def MemBytesExceeded (stats : ContainerStats) (limits : ResourceLimitsCfg) : Prop :=
  ∃ m, limits.memory = some m ∧ m ≠ "" ∧ 0 < parseMemoryLimit m ∧
    stats.memory_usage > parseMemoryLimit m

/-- The 95%-of-reported-limit memory dimension. -/
def MemPctExceeded (stats : ContainerStats) (limits : ResourceLimitsCfg) : Prop :=
  ∃ m, limits.memory = some m ∧ m ≠ "" ∧ 0 < stats.memory_limit ∧
    stats.memory_percent > 95

/-- The process-count dimension. -/
def PidsExceeded (stats : ContainerStats) (limits : ResourceLimitsCfg) : Prop :=
  ∃ pl, limits.pids_limit = some pl ∧ pl ≠ 0 ∧ stats.pids > pl

theorem cpuChunk_ne_nil_iff (stats : ContainerStats) (cpus : Option ℚ) :
    (match cpus with
     | some c =>
       if stats.cpu_percent > qMul c 100 then
         [Violation.cpu stats.cpu_percent (qMul c 100)]
       else []
     | none => ([] : List Violation)) ≠ [] ↔
      (∃ c, cpus = some c ∧ stats.cpu_percent > c * 100) := by
  rcases cpus with _ | c
  · simp
  · simp only [qMul_eq, Option.some.injEq]
    by_cases h : stats.cpu_percent > c * 100 <;> simp [h]

theorem memChunk_ne_nil_iff (stats : ContainerStats) (mem : Option String) :
    (match mem with
     | some mstr =>
       if mstr ≠ "" then
         let mlb := parseMemoryLimit mstr
         (if mlb > 0 ∧ stats.memory_usage > mlb then
            [Violation.memoryBytes stats.memory_usage mlb] else []) ++
         (if stats.memory_limit > 0 ∧ stats.memory_percent > 95 then
            [Violation.memoryPercent stats.memory_percent] else [])
       else []
     | none => ([] : List Violation)) ≠ [] ↔
      ((∃ m, mem = some m ∧ m ≠ "" ∧ 0 < parseMemoryLimit m ∧
          stats.memory_usage > parseMemoryLimit m)
       ∨ (∃ m, mem = some m ∧ m ≠ "" ∧ 0 < stats.memory_limit ∧
          stats.memory_percent > 95)) := by
  rcases mem with _ | m
  · simp
  · simp only [Option.some.injEq]
    by_cases hm : m = ""
    · simp [hm]
    · by_cases h1 : parseMemoryLimit m > 0 ∧ stats.memory_usage > parseMemoryLimit m <;>
        by_cases h2 : stats.memory_limit > 0 ∧ stats.memory_percent > 95 <;>
        simp [hm, h1, h2] <;> tauto

theorem pidsChunk_ne_nil_iff (stats : ContainerStats) (pids : Option ℤ) :
    (match pids with
     | some pl => if pl ≠ 0 ∧ stats.pids > pl then [Violation.pids stats.pids pl]
       else []
     | none => ([] : List Violation)) ≠ [] ↔
      (∃ pl, pids = some pl ∧ pl ≠ 0 ∧ stats.pids > pl) := by
  rcases pids with _ | pl
  · simp
  · simp only [Option.some.injEq]
    by_cases h : pl ≠ 0 ∧ stats.pids > pl <;> simp [h] <;> tauto

theorem enforceViolations_ne_nil_iff (stats : ContainerStats)
    (limits : ResourceLimitsCfg) :
    enforceViolations stats limits ≠ [] ↔
      CpuExceeded stats limits ∨ MemBytesExceeded stats limits ∨
        MemPctExceeded stats limits ∨ PidsExceeded stats limits := by
  unfold enforceViolations CpuExceeded MemBytesExceeded MemPctExceeded PidsExceeded
  rw [ne_eq, List.append_eq_nil, List.append_eq_nil, not_and_or, not_and_or,
    ← ne_eq, ← ne_eq, ← ne_eq, cpuChunk_ne_nil_iff, memChunk_ne_nil_iff,
    pidsChunk_ne_nil_iff]
  simp only [or_assoc]

/-- The stats of the memory-violation scenario: 600 MB used against a 512 MB
reported limit (memory percent 117.19 as `get_container_stats` rounds it),
CPU at 10%, 5 processes. -/
def memScenarioStats : ContainerStats :=
  ⟨10, 629145600, 536870912, Rat.divInt 11719 100, 5⟩

/-- The stats of the CPU-at-50% scenario: all other dimensions within limits. -/
def cpuScenarioStats : ContainerStats :=
  ⟨50, 104857600, 536870912, Rat.divInt 1953 100, 5⟩

/-- The configured limits of both scenarios: 512m memory, 1.0 CPU cores,
100 pids. -/
def scenarioLimits : ResourceLimitsCfg := ⟨some "512m", some 1, some 100⟩

set_option maxHeartbeats 2000000 in
/-- **C5.** The enforcement check compares CPU against cpus × 100, memory
against both the parsed byte ceiling of the configured string and the
95%-of-reported-limit threshold, and process count against the pids limit;
600 MB of usage against a "512m" limit is exceeded with a memory violation,
and 50% CPU against a 1.0-core limit (all else within limits) is not
exceeded. -/
theorem c5_enforcement_thresholds :
    (∀ stats limits, enforceViolations stats limits ≠ [] ↔
      CpuExceeded stats limits ∨ MemBytesExceeded stats limits ∨
        MemPctExceeded stats limits ∨ PidsExceeded stats limits)
    ∧ (enforceLimits "c1" memScenarioStats scenarioLimits .log [] 0 true
        true).exceeded = true
    ∧ Violation.memoryBytes 629145600 536870912 ∈
        (enforceLimits "c1" memScenarioStats scenarioLimits .log [] 0 true
          true).violations
    ∧ (enforceLimits "c2" cpuScenarioStats scenarioLimits .log [] 0 true
        true).exceeded = false := by
  exact ⟨enforceViolations_ne_nil_iff, by decide, by decide, by decide⟩

/-- Threshold witness: instantiating the comparison structure at the memory
scenario shows the absolute-byte memory dimension is what fires there. -/
theorem c5_enforcement_thresholds_witness :
    enforceViolations memScenarioStats scenarioLimits ≠ [] := by
  refine (c5_enforcement_thresholds.1 memScenarioStats scenarioLimits).mpr ?_
  refine Or.inr (Or.inl ⟨"512m", rfl, by decide, by decide, by decide⟩)

/-! ## C6: tracking under the log action -/

/-- **C6 is false as stated**: an exceeded check with action log does create
and bump the per-container violation-tracking entry (the repository's own
test test_enforce_limits_tracks_violations asserts exactly this). -/
theorem c6_log_tracking_counterexample :
    (enforceLimits "c1" memScenarioStats scenarioLimits .log [] 1000 true
      true).exceeded = true
    ∧ (enforceLimits "c1" memScenarioStats scenarioLimits .log [] 1000 true
        true).action_taken = "logged"
    ∧ (enforceLimits "c1" memScenarioStats scenarioLimits .log [] 1000 true
        true).tracking = [("c1", (1000, 1))] := by
  decide

/-- **C6 (amended).** When limits are exceeded under action log, the call
logs only — no stop or kill, action_taken = "logged" — but the
violation-tracking state is created or bumped exactly as for every other
requested action (first-exceeded timestamp recorded on first violation,
cumulative count incremented). -/
theorem c6_log_action_tracking (cid : String) (stats : ContainerStats)
    (limits : ResourceLimitsCfg) (tr : TrackMap) (now : ℚ)
    (stopOk killOk : Bool) (action : EnforceAction)
    (h : enforceViolations stats limits ≠ []) :
    (enforceLimits cid stats limits .log tr now stopOk killOk).action_taken =
      "logged"
    ∧ (enforceLimits cid stats limits action tr now stopOk killOk).tracking =
        trackSet tr cid (trackBump tr cid now) := by
  have hne : (enforceViolations stats limits).isEmpty = false := by
    simpa [List.isEmpty_iff] using h
  constructor
  · simp [enforceLimits, hne]
  · cases action <;> simp [enforceLimits, hne]

/-- Tracking witness at the memory scenario: logged, and the entry bumps from
count 2 to 3 keeping its first-exceeded timestamp. -/
theorem c6_log_action_tracking_witness :
    (enforceLimits "c1" memScenarioStats scenarioLimits .log
      [("c1", (7, 2))] 1000 true true).action_taken = "logged"
    ∧ (enforceLimits "c1" memScenarioStats scenarioLimits .warn
        [("c1", (7, 2))] 1000 true true).tracking = [("c1", (7, 3))] := by
  have h := c6_log_action_tracking "c1" memScenarioStats scenarioLimits
    [("c1", (7, 2))] 1000 true true .warn (by decide)
  exact ⟨h.1, by rw [h.2]; decide⟩

/-! ## C7: CPU percentage computation -/

theorem clampQ_bounds (v : ℚ) : 0 ≤ clampQ v ∧ clampQ v ≤ 100 :=
  ⟨le_max_left 0 _, max_le (by norm_num) (min_le_left _ _)⟩

theorem computeCpuPercentRaw_bounds (cur pre : CpuSample) :
    0 ≤ computeCpuPercentRaw cur pre ∧ computeCpuPercentRaw cur pre ≤ 100 := by
  unfold computeCpuPercentRaw
  split
  · exact clampQ_bounds _
  · norm_num

theorem half_eq : Rat.divInt 1 2 = 1 / 2 := by
  rw [Rat.divInt_eq_div]; norm_num

theorem rhe_bounds {y : ℚ} (h0 : 0 ≤ y) (h1 : y ≤ 10000) :
    0 ≤ rhe y ∧ rhe y ≤ 10000 := by
  have hn0 : (0 : ℤ) ≤ ⌊y⌋ := Int.floor_nonneg.mpr h0
  have hfl : (⌊y⌋ : ℚ) ≤ y := Int.floor_le y
  have hup : ⌊y⌋ ≤ 10000 := by
    have h := Int.floor_le_floor h1
    rwa [show ((10000 : ℚ)) = ((10000 : ℤ) : ℚ) by norm_num,
      Int.floor_intCast] at h
  simp only [rhe, qSub_eq, half_eq]
  have hbound1 : ¬ (y - (⌊y⌋ : ℚ) < 1 / 2) → ⌊y⌋ + 1 ≤ 10000 := by
    intro hge
    push_neg at hge
    by_contra hlt
    push_neg at hlt
    have h10 : (10000 : ℤ) ≤ ⌊y⌋ := by omega
    have h10' : (10000 : ℚ) ≤ (⌊y⌋ : ℚ) := by exact_mod_cast h10
    linarith
  split_ifs with hc1 hc2 hc3
  · exact ⟨hn0, hup⟩
  · exact ⟨by omega, hbound1 hc1⟩
  · exact ⟨hn0, hup⟩
  · exact ⟨by omega, hbound1 hc1⟩

theorem pyRound2_bounds {x : ℚ} (h0 : 0 ≤ x) (h1 : x ≤ 100) :
    0 ≤ pyRound2 x ∧ pyRound2 x ≤ 100 := by
  unfold pyRound2
  rw [qDiv_eq, qMul_eq]
  have hy0 : 0 ≤ x * 100 := by linarith
  have hy1 : x * 100 ≤ 10000 := by linarith
  obtain ⟨hr0, hr1⟩ := rhe_bounds hy0 hy1
  have hc0 : (0 : ℚ) ≤ ((rhe (x * 100) : ℤ) : ℚ) := by exact_mod_cast hr0
  have hc1 : ((rhe (x * 100) : ℤ) : ℚ) ≤ 10000 := by exact_mod_cast hr1
  constructor <;> [positivity; linarith]

/-- **C7.** The cpu_percent reported by get_container_stats is the rounded,
clamped-to-[0, 100] value of
(Δ container CPU time / Δ system CPU time) × core count × 100 whenever both
cumulative deltas are positive, and the reported value always lies in
[0, 100]. -/
theorem c7_cpu_percent (cur pre : CpuSample) :
    (0 ≤ statsCpuPercent cur pre ∧ statsCpuPercent cur pre ≤ 100)
    ∧ (pre.total_usage < cur.total_usage → pre.system_usage < cur.system_usage →
        statsCpuPercent cur pre = pyRound2 (max 0 (min 100
          (((cur.total_usage : ℚ) - (pre.total_usage : ℚ)) /
              ((cur.system_usage : ℚ) - (pre.system_usage : ℚ)) *
            (if cur.percpu_len = 0 then (1 : ℚ) else (cur.percpu_len : ℚ)) *
            100)))) := by
  constructor
  · obtain ⟨h0, h1⟩ := computeCpuPercentRaw_bounds cur pre
    exact pyRound2_bounds h0 h1
  · intro hcpu hsys
    unfold statsCpuPercent computeCpuPercentRaw
    have hc : (0 : ℤ) < (cur.total_usage : ℤ) - (pre.total_usage : ℤ) := by
      omega
    have hs : (0 : ℤ) < (cur.system_usage : ℤ) - (pre.system_usage : ℤ) := by
      omega
    rw [if_pos ⟨hs, hc⟩]
    unfold clampQ
    simp only [qMul_eq, qDiv_eq]
    push_cast
    by_cases hlen : cur.percpu_len = 0 <;> simp [hlen]

/-- CPU witness: a concrete cumulative sample pair at 10% utilisation on one
core reports exactly 10, inside [0, 100]. -/
theorem c7_cpu_percent_witness :
    statsCpuPercent ⟨100000000, 1000000000, 1⟩ ⟨50000000, 500000000, 1⟩ = 10
    ∧ 0 ≤ statsCpuPercent ⟨100000000, 1000000000, 1⟩ ⟨50000000, 500000000, 1⟩
    ∧ statsCpuPercent ⟨100000000, 1000000000, 1⟩ ⟨50000000, 500000000, 1⟩ ≤ 100 := by
  have hformula := (c7_cpu_percent ⟨100000000, 1000000000, 1⟩
    ⟨50000000, 500000000, 1⟩).2 (by decide) (by decide)
  have hbounds := (c7_cpu_percent ⟨100000000, 1000000000, 1⟩
    ⟨50000000, 500000000, 1⟩).1
  exact ⟨by decide, hbounds.1, hbounds.2⟩

/-! ## Sandbox manager and environment builders (`manager.py`,
`environment.py`, `container_environment.py`)

The orchestration around the external backends is embedded as functions of a
small world record naming which backend steps succeed; effects record what
was created or removed. -/

instance {ε α : Type} [DecidableEq ε] [DecidableEq α] :
    DecidableEq (Except ε α) := fun x y =>
  match x, y with
  | .ok a, .ok b => decidable_of_iff (a = b) (by simp)
  | .error a, .error b => decidable_of_iff (a = b) (by simp)
  | .ok _, .error _ => isFalse (by simp)
  | .error _, .ok _ => isFalse (by simp)

/-- The isolation mode of a SandboxManager. -/
inductive IsolationMode where
  | directory | container
deriving DecidableEq, Repr

/-- The backend facts a cleanup run encounters: whether the sandbox directory
exists, whether removing the tree succeeds, the container id recovered from a
readable metadata file (none when missing or corrupt), and whether the
runtime's container removal succeeds. -/
structure CleanupWorld where
  dirExists : Bool
  rmtreeOk : Bool
  metadataContainerId : Option String
  removeContainerOk : Bool
deriving DecidableEq, Repr

/-- What a cleanup run removed. -/
structure CleanupEffects where
  containerRemoved : Bool
  dirRemoved : Bool
deriving DecidableEq, Repr

/-- `EnvironmentBuilder.cleanup` (directory backend): False when the sandbox
directory does not exist; a failing `shutil.rmtree` raises `RuntimeError`. -/
def envBuilderCleanup (w : CleanupWorld) : Except Unit Bool × CleanupEffects :=
  if !w.dirExists then (.ok false, ⟨false, false⟩)
  else if w.rmtreeOk then (.ok true, ⟨false, true⟩)
  else (.error (), ⟨false, false⟩)

/-- `ContainerEnvironmentBuilder.cleanup`: never raises.  False when the
directory does not exist; otherwise the container recovered from metadata is
stopped and removed (each tolerating errors), the directory tree is removed,
and any internal exception — a failing rmtree included — is caught by the
outer except and reported as False. -/
def containerBuilderCleanup (w : CleanupWorld) : Bool × CleanupEffects :=
  if !w.dirExists then (false, ⟨false, false⟩)
  else
    let containerRemoved := w.metadataContainerId.isSome && w.removeContainerOk
    if w.rmtreeOk then (true, ⟨containerRemoved, true⟩)
    else (false, ⟨containerRemoved, false⟩)

/-- `SandboxManager.cleanup_sandbox`: an unknown id returns False; otherwise
the record is popped and the mode's builder cleanup runs — if it raises, the
record is restored and the failure re-raised; its boolean return value is
ignored.  The registry is modelled by its list of sandbox ids. -/
def cleanupSandbox (mode : IsolationMode) (reg : List String) (sid : String)
    (w : CleanupWorld) : Except Unit Bool × List String × CleanupEffects :=
  if sid ∉ reg then (.ok false, reg, ⟨false, false⟩)
  else
    let popped := reg.erase sid
    match mode with
    | .directory =>
      match envBuilderCleanup w with
      | (.ok _, eff) => (.ok true, popped, eff)
      | (.error e, eff) => (.error e, popped ++ [sid], eff)
    | .container =>
      let r := containerBuilderCleanup w
      (.ok true, popped, r.2)

/-- The errors a creation run raises. -/
inductive CreateError where
  /-- `ValueError: Sandbox ... already exists` -/
  | duplicateId
  /-- any step failure, re-raised as `RuntimeError` -/
  | wrapped
deriving DecidableEq, Repr

/-- The backend facts a directory-mode creation encounters. -/
structure DirCreateWorld where
  alreadyExists : Bool
  pythonVersion : Option String
  packages : List String
  venvOk : Bool
  installOk : Bool
deriving DecidableEq, Repr

/-- Outcome of `EnvironmentBuilder.create_environment`: the raised error (if
any) and whether the sandbox directory exists afterwards. -/
structure DirCreateResult where
  result : Except CreateError Unit
  sandboxDirExists : Bool
deriving DecidableEq, Repr

/-- `EnvironmentBuilder.create_environment`: duplicate ids are a precondition
error (before anything is created); the workspace and logs directories are
created; a venv is provisioned when an interpreter version is declared, or
when packages need installing; any failure inside the try removes the whole
sandbox directory before re-raising. -/
def envBuilderCreate (w : DirCreateWorld) : DirCreateResult :=
  if w.alreadyExists then ⟨.error .duplicateId, true⟩
  else if w.pythonVersion.isSome ∧ ¬ w.venvOk then ⟨.error .wrapped, false⟩
  else if w.packages ≠ [] ∧ ¬ w.venvOk then ⟨.error .wrapped, false⟩
  else if w.packages ≠ [] ∧ ¬ w.installOk then ⟨.error .wrapped, false⟩
  else ⟨.ok (), true⟩

/-- The backend facts a container-mode creation encounters: whether the image
build, container create, container start and metadata write succeed. -/
structure ContCreateWorld where
  alreadyExists : Bool
  buildOk : Bool
  createOk : Bool
  startOk : Bool
  metadataOk : Bool
deriving DecidableEq, Repr

/-- Outcome of `ContainerEnvironmentBuilder.create_environment`. -/
structure ContCreateResult where
  result : Except CreateError Unit
  containerCreated : Bool
  containerRemoved : Bool
  sandboxDirExists : Bool
deriving DecidableEq, Repr

/-- `ContainerEnvironmentBuilder.create_environment`: image build, container
create, container start, then workspace/logs directories, then metadata.  On
any failure `cleanup(sandbox_id)` runs before re-raising — but the cleanup
early-returns when the sandbox directory does not exist (it is created only
after the container is started), and when metadata was never written it
recovers no container id; in both windows an already-created container is not
removed. -/
def containerBuilderCreate (w : ContCreateWorld) : ContCreateResult :=
  if w.alreadyExists then ⟨.error .duplicateId, false, false, true⟩
  else if ¬ w.buildOk then ⟨.error .wrapped, false, false, false⟩
  else if ¬ w.createOk then ⟨.error .wrapped, false, false, false⟩
  else if ¬ w.startOk then ⟨.error .wrapped, true, false, false⟩
  else if ¬ w.metadataOk then ⟨.error .wrapped, true, false, false⟩
  else ⟨.ok (), true, false, true⟩

/-- `SandboxManager.create_sandbox`, directory mode: the record is stored only
after the backend creation succeeded; on failure the wrapped error propagates
and the registry is unchanged. -/
def createSandboxDir (reg : List String) (sid : String) (w : DirCreateWorld) :
    Except CreateError Unit × List String × Bool :=
  let r := envBuilderCreate w
  match r.result with
  | .ok _ => (.ok (), reg ++ [sid], r.sandboxDirExists)
  | .error _ => (.error .wrapped, reg, r.sandboxDirExists)

/-- `SandboxManager.create_sandbox`, container mode. -/
def createSandboxContainer (reg : List String) (sid : String)
    (w : ContCreateWorld) :
    Except CreateError Unit × List String × ContCreateResult :=
  let r := containerBuilderCreate w
  match r.result with
  | .ok _ => (.ok (), reg ++ [sid], r)
  | .error _ => (.error .wrapped, reg, r)

/-! ## C3: cleanup restore -/

/-- **C3 / code bug.** Unknown ids return False without error and the
registry is untouched; in directory mode a failed backend cleanup raises and
the record is restored (retry possible).  But in container mode a failed
backend cleanup (here: the directory removal fails, nothing is deleted) is
swallowed by `ContainerEnvironmentBuilder.cleanup`, so `cleanup_sandbox`
returns True and the record is silently dropped — contradicting the spec's
"the record is never silently dropped on a failed cleanup ... in both
isolation modes" and the builder's own docstring (False only "if it didn't
exist"). -/
theorem c3_cleanup_restore_code_bug :
    cleanupSandbox .directory ["s0"] "missing" ⟨true, true, none, true⟩ =
      (.ok false, ["s0"], ⟨false, false⟩)
    ∧ cleanupSandbox .directory ["s1"] "s1" ⟨true, false, none, true⟩ =
      (.error (), ["s1"], ⟨false, false⟩)
    ∧ cleanupSandbox .container ["s1"] "s1" ⟨true, false, some "c", true⟩ =
      (.ok true, [], ⟨true, false⟩) := by
  decide

/-! ## C4: rollback on failed creation -/

/-- **C4 / code bug.** Directory mode rolls back fully (a failed package
install leaves no sandbox directory) and the manager retains no record on
failure in either mode; but in container mode a container that was created
while `start_container` then fails survives the rollback — the cleanup call
early-returns because the sandbox directory has not been created yet — so an
orphaned container outlives the failed creation, contradicting the spec's
"no orphaned container or directory survives a failed creation". -/
theorem c4_rollback_code_bug :
    envBuilderCreate ⟨false, some "3.11", ["requests"], true, false⟩ =
      ⟨.error .wrapped, false⟩
    ∧ createSandboxDir ["other"] "new" ⟨false, some "3.11", [], false, true⟩ =
      (.error .wrapped, ["other"], false)
    ∧ containerBuilderCreate ⟨false, true, true, false, true⟩ =
      ⟨.error .wrapped, true, false, false⟩
    ∧ createSandboxContainer ["other"] "new" ⟨false, true, true, false, true⟩ =
      (.error .wrapped, ["other"], ⟨.error .wrapped, true, false, false⟩) := by
  decide

/-! ## C9: the sandbox tool set -/

/-- The default tools `ToolRegistry._register_default_tools` registers, in
registration order. -/
def registryDefaultTools : List String := ["read_file", "write_file", "list_files"]

/-- Python dict-key insertion: append if not yet present. -/
def dictKeysAdd (acc : List String) (x : String) : List String :=
  if x ∈ acc then acc else acc ++ [x]

/-- The container-mode tool set of `create_sandbox`: the skill's declared tool
names (deduplicated, order kept), then any registry tool not yet present. -/
def containerModeTools (skillTools registryTools : List String) : List String :=
  registryTools.foldl dictKeysAdd (skillTools.foldl dictKeysAdd [])

/-- The directory-mode tool set of `create_sandbox`: a declared tool is kept
only when `registry.get_tool` returns an instance (i.e. the name is
registered — unknown names are silently skipped); then any registry tool not
yet present is added. -/
def directoryModeTools (skillTools registryTools : List String) : List String :=
  registryTools.foldl dictKeysAdd
    (skillTools.foldl
      (fun acc n => if n ∈ registryTools then dictKeysAdd acc n else acc) [])

theorem mem_dictKeysAdd {acc : List String} {a x : String} :
    x ∈ dictKeysAdd acc a ↔ x ∈ acc ∨ x = a := by
  unfold dictKeysAdd
  by_cases h : a ∈ acc
  · simp only [if_pos h, iff_self_or]
    rintro rfl
    exact h
  · simp [h]

theorem mem_foldl_dictKeysAdd :
    ∀ (l acc : List String) (x : String),
      x ∈ l.foldl dictKeysAdd acc ↔ x ∈ acc ∨ x ∈ l
  | [], acc, x => by simp
  | a :: l, acc, x => by
    rw [List.foldl_cons, mem_foldl_dictKeysAdd l (dictKeysAdd acc a) x,
      mem_dictKeysAdd]
    simp only [List.mem_cons]
    tauto

theorem mem_foldl_registered (rt : List String) :
    ∀ (l acc : List String) (x : String),
      x ∈ l.foldl (fun acc n => if n ∈ rt then dictKeysAdd acc n else acc) acc ↔
        x ∈ acc ∨ (x ∈ l ∧ x ∈ rt)
  | [], acc, x => by simp
  | a :: l, acc, x => by
    rw [List.foldl_cons, mem_foldl_registered rt l _ x]
    by_cases h : a ∈ rt
    · rw [if_pos h, mem_dictKeysAdd]
      simp only [List.mem_cons]
      constructor
      · rintro ((hx | rfl) | ⟨hl, hr⟩)
        · exact Or.inl hx
        · exact Or.inr ⟨Or.inl rfl, h⟩
        · exact Or.inr ⟨Or.inr hl, hr⟩
      · rintro (hx | ⟨(rfl | hl), hr⟩)
        · exact Or.inl (Or.inl hx)
        · exact Or.inl (Or.inr rfl)
        · exact Or.inr ⟨hl, hr⟩
    · rw [if_neg h]
      simp only [List.mem_cons]
      constructor
      · rintro (hx | ⟨hl, hr⟩)
        · exact Or.inl hx
        · exact Or.inr ⟨Or.inr hl, hr⟩
      · rintro (hx | ⟨(rfl | hl), hr⟩)
        · exact Or.inl hx
        · exact absurd hr h
        · exact Or.inr ⟨hl, hr⟩

/-- **C9 is false as stated**: in directory mode a declared tool name that is
not registered (here custom_tool against the default registry) is silently
dropped, so the stored tool set is not the union of declared and default
tools. -/
theorem c9_tool_set_counterexample :
    "custom_tool" ∉ directoryModeTools ["custom_tool"] registryDefaultTools
    ∧ "custom_tool" ∈ ["custom_tool"] ++ registryDefaultTools
    ∧ "custom_tool" ∈ containerModeTools ["custom_tool"] registryDefaultTools := by
  decide

/-- **C9 (amended).** In container mode the stored tool set is exactly the
union of the skill's declared tool names and the registry's tools; in
directory mode it is the registered declared tools plus the registry's tools
— which, as a set, is just the registry's tools — and it equals the union
precisely when every declared tool is registered (with the default registry:
declared ⊆ read_file, write_file, list_files). -/
theorem c9_tool_set (sk rt : List String) (x : String) :
    (x ∈ containerModeTools sk rt ↔ x ∈ sk ∨ x ∈ rt)
    ∧ (x ∈ directoryModeTools sk rt ↔ x ∈ rt)
    ∧ (sk ⊆ rt → (x ∈ directoryModeTools sk rt ↔ x ∈ sk ∨ x ∈ rt)) := by
  have hc : x ∈ containerModeTools sk rt ↔ x ∈ sk ∨ x ∈ rt := by
    unfold containerModeTools
    rw [mem_foldl_dictKeysAdd, mem_foldl_dictKeysAdd]
    simp only [List.not_mem_nil, false_or]
  have hd : x ∈ directoryModeTools sk rt ↔ x ∈ rt := by
    unfold directoryModeTools
    rw [mem_foldl_dictKeysAdd, mem_foldl_registered]
    simp only [List.not_mem_nil, false_or]
    tauto
  refine ⟨hc, hd, fun hsub => ?_⟩
  rw [hd]
  constructor
  · exact Or.inr
  · rintro (hx | hx)
    · exact hsub hx
    · exact hx

/-- Tool-set witness: a skill declaring write_file in directory mode against
the default registry stores exactly the default tools, matching the union. -/
theorem c9_tool_set_witness :
    ("read_file" ∈ directoryModeTools ["write_file"] registryDefaultTools ↔
      "read_file" ∈ ["write_file"] ∨ "read_file" ∈ registryDefaultTools) := by
  exact (c9_tool_set ["write_file"] registryDefaultTools "read_file").2.2
    (by decide)

end SubAgent
